import Mathlib

/-!
Shallow embedding of the configuration / derivation engine of
`di_automata` (files `config_setup.py` and `devinterp/rlct_utils.py`).

Modelling conventions:
* Python `int` is `ℤ` (arbitrary precision); fields that the code and its
  callers only ever use as sizes/exponents (sequence length, group sizes)
  are `ℕ`.
* Python `float` is modelled as `ℚ` (exact arithmetic; the claims under
  study never depend on rounding of binary floats).
* A Python value that may be `None` is `Option _`; subscripting or
  attribute access on `None` raises `TypeError`, modelled as an error
  result.
* pydantic validators that `assert`/`raise` are modelled as functions into
  `Except`: a raised error aborts construction with no object produced.
* The raw input mapping (`v` in `MainConfig._set_fields`) is a structure
  with the keys the function reads; both `v["k"]` and `v.k` access styles
  of the source become field projection.
-/

/-- Label enum of `GridworldAutomatonConfig.Label`. -/
inductive GridworldLabel
  | state
  | parity
  | boundary
deriving DecidableEq, Repr

/-- Label enum of `ABABAutomatonConfig.Label`. -/
inductive ABABLabel
  | state
  | boundary
deriving DecidableEq, Repr

/-- Label enum of `AdderAutomatonConfig.Label`. -/
inductive AdderLabel
  | state
  | digit
  | position
deriving DecidableEq, Repr

/-- Label enum of `PermutationAutomatonConfig.Label`. -/
inductive PermutationLabel
  | state
  | first_chair
deriving DecidableEq, Repr

/-- Label enum of `DihedralAutomatonConfig.Label`. -/
inductive DihedralLabel
  | state
  | toggle
  | position
deriving DecidableEq, Repr

/- Task variant structures.  Each carries the `DatasetConfig` base fields
the derivation pipeline reads (`size`, `length`); the base fields
`random_length` and `seed` only feed `dataset_filename`, outside every
claim, and are elided. -/

/-- `ParityAutomatonConfig` (binary input automaton). -/
structure ParityAutomatonConfig where
  size : ℤ
  length : ℕ
  prob1 : ℚ
deriving DecidableEq, Repr

/-- `GridworldAutomatonConfig`. -/
structure GridworldAutomatonConfig where
  size : ℤ
  length : ℕ
  prob1 : ℚ
  n : ℕ
  label_type : GridworldLabel
deriving DecidableEq, Repr

/-- `ABABAutomatonConfig`. -/
structure ABABAutomatonConfig where
  size : ℤ
  length : ℕ
  prob1 : ℚ
  prob_abab_pos_sample : ℚ
  label_type : ABABLabel
deriving DecidableEq, Repr

/-- `AdderAutomatonConfig`. -/
structure AdderAutomatonConfig where
  size : ℤ
  length : ℕ
  prob1 : ℚ
  n_addends : ℕ
  label_type : AdderLabel
deriving DecidableEq, Repr

/-- `FlipFlopAutomatonConfig`. -/
structure FlipFlopAutomatonConfig where
  size : ℤ
  length : ℕ
  n : ℕ
deriving DecidableEq, Repr

/-- `PermutationAutomatonConfig` (also the shape of `AlternatingAutomatonConfig`). -/
structure PermutationAutomatonConfig where
  size : ℤ
  length : ℕ
  n : ℕ
  label_type : PermutationLabel
deriving DecidableEq, Repr

/-- `SymmetricAutomatonConfig`: `PermutationAutomatonConfig` plus `n_actions`. -/
structure SymmetricAutomatonConfig where
  size : ℤ
  length : ℕ
  n : ℕ
  label_type : PermutationLabel
  n_actions : ℕ
deriving DecidableEq, Repr

/-- `CyclicAutomatonConfig`. -/
structure CyclicAutomatonConfig where
  size : ℤ
  length : ℕ
  n : ℕ
  n_actions : ℕ
deriving DecidableEq, Repr

/-- `DihedralAutomatonConfig`. -/
structure DihedralAutomatonConfig where
  size : ℤ
  length : ℕ
  n : ℕ
  label_type : DihedralLabel
deriving DecidableEq, Repr

/-- `QuaternionAutomatonConfig`. -/
structure QuaternionAutomatonConfig where
  size : ℤ
  length : ℕ
deriving DecidableEq, Repr

/-- `PermutationResetAutomatonConfig` (a constructed instance: `perm_probs`
has been resolved by its validator, see `set_perm_probs`). -/
structure PermutationResetAutomatonConfig where
  size : ℤ
  length : ℕ
  n : ℕ
  generators : List (List ℤ)
  perm_probs : List ℚ
deriving DecidableEq, Repr

/-- `AdderAutomatonConfig.vocab_size` (source line 227: always 4). -/
def AdderAutomatonConfig.vocab_size (_c : AdderAutomatonConfig) : ℕ := 4

/-- `AdderAutomatonConfig.output_vocab_size` (source lines 238-244). -/
def AdderAutomatonConfig.output_vocab_size (c : AdderAutomatonConfig) : ℕ :=
  match c.label_type with
  | AdderLabel.state => 2 * (2 ^ c.n_addends - 1)
  | AdderLabel.digit => c.n_addends
  | AdderLabel.position => 2

/-- `DihedralAutomatonConfig.vocab_size` (source line 321: always 2). -/
def DihedralAutomatonConfig.vocab_size (_c : DihedralAutomatonConfig) : ℕ := 2

/-- `DihedralAutomatonConfig.output_vocab_size` (source lines 325-329). -/
def DihedralAutomatonConfig.output_vocab_size (c : DihedralAutomatonConfig) : ℕ :=
  match c.label_type with
  | DihedralLabel.state => c.n * 2
  | DihedralLabel.toggle => 2
  | DihedralLabel.position => c.n

/-- `PermutationResetAutomatonConfig.vocab_size` (source line 380: `n! + len(generators)`). -/
def PermutationResetAutomatonConfig.vocab_size (c : PermutationResetAutomatonConfig) : ℕ :=
  Nat.factorial c.n + c.generators.length

/-- `PermutationResetAutomatonConfig.output_vocab_size` (source line 387: `n!`). -/
def PermutationResetAutomatonConfig.output_vocab_size (c : PermutationResetAutomatonConfig) : ℕ :=
  Nat.factorial c.n

/-- The closed set of task variants (`config_class_map`, source lines 544-556),
each case wrapping its constructed, validated instance. -/
inductive TaskConfig
  | abab : ABABAutomatonConfig → TaskConfig
  | adder : AdderAutomatonConfig → TaskConfig
  | alternating : PermutationAutomatonConfig → TaskConfig
  | cyclic : CyclicAutomatonConfig → TaskConfig
  | dihedral : DihedralAutomatonConfig → TaskConfig
  | flipflop : FlipFlopAutomatonConfig → TaskConfig
  | gridworld : GridworldAutomatonConfig → TaskConfig
  | parity : ParityAutomatonConfig → TaskConfig
  | quaternion : QuaternionAutomatonConfig → TaskConfig
  | permutation_reset : PermutationResetAutomatonConfig → TaskConfig
  | symmetric : SymmetricAutomatonConfig → TaskConfig
deriving DecidableEq, Repr

/-- The `size` base field of the wrapped instance. -/
def TaskConfig.size : TaskConfig → ℤ
  | .abab c => c.size
  | .adder c => c.size
  | .alternating c => c.size
  | .cyclic c => c.size
  | .dihedral c => c.size
  | .flipflop c => c.size
  | .gridworld c => c.size
  | .parity c => c.size
  | .quaternion c => c.size
  | .permutation_reset c => c.size
  | .symmetric c => c.size

/-- The `length` base field of the wrapped instance. -/
def TaskConfig.length : TaskConfig → ℕ
  | .abab c => c.length
  | .adder c => c.length
  | .alternating c => c.length
  | .cyclic c => c.length
  | .dihedral c => c.length
  | .flipflop c => c.length
  | .gridworld c => c.length
  | .parity c => c.length
  | .quaternion c => c.length
  | .permutation_reset c => c.length
  | .symmetric c => c.length

/-- The string value of `dataset_type` (the `DatasetType` enum values). -/
def TaskConfig.datasetTypeStr : TaskConfig → String
  | .abab _ => "abab"
  | .adder _ => "adder"
  | .alternating _ => "alternating"
  | .cyclic _ => "cyclic"
  | .dihedral _ => "dihedral"
  | .flipflop _ => "flipflop"
  | .gridworld _ => "gridworld"
  | .parity _ => "parity"
  | .quaternion _ => "quaternion"
  | .permutation_reset _ => "permutation_reset"
  | .symmetric _ => "symmetric"

/-- `vocab_size`, dispatched per variant exactly as the per-class
properties of the source define it. -/
def TaskConfig.vocab_size : TaskConfig → ℕ
  | .abab _ => 2
  | .adder c => c.vocab_size
  | .alternating c => c.n
  | .cyclic c => c.n
  | .dihedral c => c.vocab_size
  | .flipflop c => c.n + 1
  | .gridworld _ => 2
  | .parity _ => 2
  | .quaternion _ => 4
  | .permutation_reset c => c.vocab_size
  | .symmetric c => c.n

/-- `output_vocab_size`, dispatched per variant exactly as the per-class
properties of the source define it. -/
def TaskConfig.output_vocab_size : TaskConfig → ℕ
  | .abab c => match c.label_type with
    | ABABLabel.state => 4
    | ABABLabel.boundary => 2
  | .adder c => c.output_vocab_size
  | .alternating c => match c.label_type with
    | PermutationLabel.state => Nat.factorial c.n
    | PermutationLabel.first_chair => c.n
  | .cyclic c => c.n
  | .dihedral c => c.output_vocab_size
  | .flipflop c => c.n + 1
  | .gridworld c => match c.label_type with
    | GridworldLabel.state => c.n
    | GridworldLabel.parity => 2
    | GridworldLabel.boundary => 2
  | .parity _ => 2
  | .quaternion _ => 8
  | .permutation_reset c => c.output_vocab_size
  | .symmetric c => match c.label_type with
    | PermutationLabel.state => Nat.factorial c.n
    | PermutationLabel.first_chair => c.n

/-- Errors raised during task-variant construction. -/
inductive TaskErr
  | indexError
  | assertionGenerators
deriving DecidableEq, Repr

/-- `PermutationResetAutomatonConfig.check_generators` (source lines 353-357):
`assert len(v[0]) == n`; `v[0]` on an empty list raises `IndexError`. -/
def check_generators (n : ℕ) (v : List (List ℤ)) : Except TaskErr (List (List ℤ)) :=
  match v with
  | [] => Except.error TaskErr.indexError
  | g :: _ => if g.length = n then Except.ok v else Except.error TaskErr.assertionGenerators

/-- `PermutationResetAutomatonConfig.set_perm_probs` (source lines 359-371):
when `perm_probs` is `None`, build the uniform list over the generators;
otherwise keep the supplied value. -/
def set_perm_probs (v : Option (List ℚ)) (generators : List (List ℤ)) : List ℚ :=
  match v with
  | none =>
    let n_generators := generators.length
    let uniform_prob : ℚ := if n_generators > 0 then 1 / n_generators else 0
    List.replicate n_generators uniform_prob
  | some l => l

/-- Construction of a `PermutationResetAutomatonConfig`: pydantic runs the
field validators in declaration order (`check_generators`, then
`set_perm_probs`, the latter reading the already-validated generators). -/
def PermutationResetAutomatonConfig.construct (size : ℤ) (length : ℕ) (n : ℕ)
    (generators : List (List ℤ)) (perm_probs : Option (List ℚ)) :
    Except TaskErr PermutationResetAutomatonConfig :=
  match check_generators n generators with
  | Except.error e => Except.error e
  | Except.ok g =>
    Except.ok { size := size, length := length, n := n, generators := g,
                perm_probs := set_perm_probs perm_probs g }

/- ---------------------------------------------------------------------
Sampler parameter records and the RLCT configuration.
`rlct_loss_type` / `sampling_method` / `model_type` values are the raw
enum strings of the input mapping. -/

/-- Raw `sgld_kwargs` mapping: the fields of `SGLD_Kwargs` except
`num_samples`, which only the derivation writes (source line 537). -/
structure SGLDKwargsRaw where
  lr : ℚ
  noise_level : ℚ
  weight_decay : ℚ
  elasticity : ℚ
  bounding_box_size : Option ℚ
  temperature : String
deriving DecidableEq, Repr

/-- `SGLD_Kwargs` (source lines 403-410). -/
structure SGLD_Kwargs where
  lr : ℚ
  noise_level : ℚ
  weight_decay : ℚ
  elasticity : ℚ
  bounding_box_size : Option ℚ
  temperature : String
  num_samples : ℤ
deriving DecidableEq, Repr

/-- Raw `sgnht_kwargs` mapping, without `num_samples`. -/
structure SGNHTKwargsRaw where
  lr : ℚ
  diffusion_factor : ℚ
  bounding_box_size : Option ℚ
deriving DecidableEq, Repr

/-- `SGNHT_Kwargs` (source lines 396-400). -/
structure SGNHT_Kwargs where
  lr : ℚ
  diffusion_factor : ℚ
  bounding_box_size : Option ℚ
  num_samples : ℤ
deriving DecidableEq, Repr

/-- The dict mutation `sgld_kwargs["num_samples"] = ns` adding the key. -/
def SGLDKwargsRaw.withNumSamples (k : SGLDKwargsRaw) (ns : ℤ) : SGLD_Kwargs :=
  { lr := k.lr, noise_level := k.noise_level, weight_decay := k.weight_decay,
    elasticity := k.elasticity, bounding_box_size := k.bounding_box_size,
    temperature := k.temperature, num_samples := ns }

/-- The dict mutation `sgnht_kwargs["num_samples"] = ns` adding the key. -/
def SGNHTKwargsRaw.withNumSamples (k : SGNHTKwargsRaw) (ns : ℤ) : SGNHT_Kwargs :=
  { lr := k.lr, diffusion_factor := k.diffusion_factor,
    bounding_box_size := k.bounding_box_size, num_samples := ns }

/-- Raw `rlct_config` mapping as read by `MainConfig._set_fields`:
`num_samples` and `rlct_data_dir` are still unset, the kwargs records are
the optional raw mappings. -/
structure RLCTRaw where
  rlct_loss_type : String
  sampling_method : Option String
  sigma : ℚ
  num_chains : ℤ
  num_draws : ℤ
  num_burnin_steps : ℤ
  num_steps_bw_draws : ℤ
  batch_size : ℤ
  cores : ℤ
  verbose : Bool
  online : Bool
  use_distill_loss : Bool
  use_diagnostics : Bool
  save_results : Bool
  sgld_kwargs : Option SGLDKwargsRaw
  sgnht_kwargs : Option SGNHTKwargsRaw
deriving DecidableEq, Repr

/-- `RLCTConfig` after derivation (source lines 418-447): `num_samples`,
`rlct_data_dir` and both kwargs records populated. -/
structure RLCTConfig where
  rlct_loss_type : String
  sampling_method : Option String
  sigma : ℚ
  num_chains : ℤ
  num_draws : ℤ
  num_samples : ℤ
  num_burnin_steps : ℤ
  num_steps_bw_draws : ℤ
  batch_size : ℤ
  cores : ℤ
  verbose : Bool
  online : Bool
  use_distill_loss : Bool
  use_diagnostics : Bool
  save_results : Bool
  sgld_kwargs : SGLD_Kwargs
  sgnht_kwargs : SGNHT_Kwargs
  rlct_data_dir : String
deriving DecidableEq, Repr

/-- `NanoGPTConfig` (source lines 91-100). -/
structure NanoGPTConfig where
  block_size : ℤ
  vocab_size : ℤ
  output_vocab_size : Option ℤ
  n_layers : ℤ
  n_heads : ℤ
  embed_dim : ℤ
  dropout : ℚ
  is_causal : Bool
  bias : Bool
deriving DecidableEq, Repr

/-- `DataLoaderConfig` (source lines 117-129). -/
structure DataLoaderConfig where
  train_bs : ℤ
  test_bs : ℤ
  num_workers : ℤ
  train_fraction : ℚ
  shuffle_train : Bool
deriving DecidableEq, Repr

/-- `OptimizerConfig`, reduced to the one field the derivation pipeline
reads (`default_lr`, source line 514); the remaining hyperparameters are
never read during derivation (and `clip_grad`'s float infinity default has
no exact-ℚ counterpart). -/
structure OptimizerConfigR where
  default_lr : ℚ
deriving DecidableEq, Repr

/-- `WandBConfig` (source lines 450-457), before its `check_sweep_num`
validator has run. -/
structure WandBConfig where
  log_to_wandb : Bool
  save_model_as_artifact : Bool
  wandb_project_name : String
  entity_name : String
  sweep : Bool
  sweep_num : Option ℤ
  wandb_run_name_suffix : Option String
deriving DecidableEq, Repr

/-- The raw input mapping `v` of `MainConfig._set_fields`, minus
`task_config` (the derivation functions below take the already-resolved
`TaskConfig` instance of source line 509 as a separate argument). -/
structure RawMain where
  model_type : String
  dataloader_config : DataLoaderConfig
  optimizer_config : OptimizerConfigR
  nano_gpt_config : Option NanoGPTConfig
  rlct_config : Option RLCTRaw
  wandb_config : WandBConfig
  num_training_iter : ℤ
  eval_frequency : Option ℤ
deriving DecidableEq, Repr

/-- The validated `MainConfig` produced by a successful derivation. -/
structure MainConfig where
  model_type : String
  task_config : TaskConfig
  dataloader_config : DataLoaderConfig
  optimizer_config : OptimizerConfigR
  nano_gpt_config : NanoGPTConfig
  rlct_config : RLCTConfig
  wandb_config : WandBConfig
  num_training_iter : ℤ
  run_name : String
  is_wandb_enabled : Bool
  num_epochs : ℤ
  eval_frequency : ℤ
deriving DecidableEq, Repr

/-- Errors aborting `MainConfig` construction. -/
inductive DerivErr
  | typeError
  | zeroDivisionError
  | burninUnsupported
  | valueErrorSweepNum
deriving DecidableEq, Repr

/-- Source lines 511-512: `if not v["eval_frequency"]: v["eval_frequency"]
= task_config["size"]` — a falsy (`None` or `0`) raw `eval_frequency` is
replaced by the task's declared dataset `size`. -/
def effective_eval_frequency (task : TaskConfig) (v : RawMain) : ℤ :=
  match v.eval_frequency with
  | none => task.size
  | some e => if e = 0 then task.size else e

/-- Source line 514: the `run_name` f-string (the Python float formatting
of the learning rate is rendered from its exact-ℚ model). -/
def run_name_of (task : TaskConfig) (v : RawMain) (ng : NanoGPTConfig) : String :=
  task.datasetTypeStr ++ "_" ++ v.model_type ++ "_LR" ++
    toString v.optimizer_config.default_lr ++ "_its" ++
    toString v.num_training_iter ++ "_layers" ++ toString ng.n_layers ++
    "_seqlen" ++ toString task.length

/-- Source line 516: `num_epochs = math.ceil(num_training_iter /
eval_frequency)`, modelled as the exact rational ceiling. -/
def num_epochs_of (iters ef : ℤ) : ℤ := ⌈(iters : ℚ) / (ef : ℚ)⌉

/-- Source lines 519-525: overwrite the NanoGPT dimensions from the task
(`block_size = length + 1`, vocabulary sizes from the instance). -/
def derived_nano_gpt (task : TaskConfig) (ng : NanoGPTConfig) : NanoGPTConfig :=
  { ng with block_size := (task.length : ℤ) + 1,
            vocab_size := (task.vocab_size : ℤ),
            output_vocab_size := some (task.output_vocab_size : ℤ) }

/-- Source line 535: `num_samples = min((num_draws * num_steps_bw_draws +
num_burnin_steps) * train_bs, vocab_size ** length)`. -/
def rlct_num_samples (task : TaskConfig) (rc : RLCTRaw) (train_bs : ℤ) : ℤ :=
  min ((rc.num_draws * rc.num_steps_bw_draws + rc.num_burnin_steps) * train_bs)
      ((task.vocab_size : ℤ) ^ task.length)

/-- Source lines 530-537: the derived `RLCTConfig` — storage directory
from the distillation flag, `num_samples` from `rlct_num_samples`, copied
into both sampler kwargs records. -/
def derived_rlct (task : TaskConfig) (v : RawMain) (rc : RLCTRaw)
    (sgld : SGLDKwargsRaw) (sgnht : SGNHTKwargsRaw) : RLCTConfig :=
  { rlct_loss_type := rc.rlct_loss_type
    sampling_method := rc.sampling_method
    sigma := rc.sigma
    num_chains := rc.num_chains
    num_draws := rc.num_draws
    num_samples := rlct_num_samples task rc v.dataloader_config.train_bs
    num_burnin_steps := rc.num_burnin_steps
    num_steps_bw_draws := rc.num_steps_bw_draws
    batch_size := rc.batch_size
    cores := rc.cores
    verbose := rc.verbose
    online := rc.online
    use_distill_loss := rc.use_distill_loss
    use_diagnostics := rc.use_diagnostics
    save_results := rc.save_results
    sgld_kwargs := sgld.withNumSamples (rlct_num_samples task rc v.dataloader_config.train_bs)
    sgnht_kwargs := sgnht.withNumSamples (rlct_num_samples task rc v.dataloader_config.train_bs)
    rlct_data_dir := if ¬ rc.use_distill_loss then "rlct_data" else "rlct_data_distill" }

/-- The validated configuration assembled by `_set_fields` when every
check passed. -/
def derived_config (task : TaskConfig) (v : RawMain) (ng : NanoGPTConfig)
    (rc : RLCTRaw) (sgld : SGLDKwargsRaw) (sgnht : SGNHTKwargsRaw) : MainConfig :=
  { model_type := v.model_type
    task_config := task
    dataloader_config := v.dataloader_config
    optimizer_config := v.optimizer_config
    nano_gpt_config := derived_nano_gpt task ng
    rlct_config := derived_rlct task v rc sgld sgnht
    wandb_config := v.wandb_config
    num_training_iter := v.num_training_iter
    run_name := run_name_of task v ng
    is_wandb_enabled := v.wandb_config.log_to_wandb
    num_epochs := num_epochs_of v.num_training_iter (effective_eval_frequency task v)
    eval_frequency := effective_eval_frequency task v }

/-- `MainConfig._set_fields` (source lines 497-541), step by step:

* lines 511-512: default a falsy `eval_frequency` (`effective_eval_frequency`);
* line 514: build `run_name` — reading `nano_gpt_config["n_layers"]` is a
  `TypeError` when that mapping is `None`;
* line 515: `is_wandb_enabled` (the raw `wandb_config` mapping is nonempty,
  hence truthy, so this is its `log_to_wandb` entry);
* line 516: `num_epochs`; division by a zero `eval_frequency` raises;
* lines 519-525: overwrite the NanoGPT dimensions (`derived_nano_gpt`);
* lines 528-535: `rlct_data_dir` and `num_samples` — reading
  `rlct_config["use_distill_loss"]` is a `TypeError` when that mapping is
  `None`;
* line 537: write `num_samples` into `sgld_kwargs` then `sgnht_kwargs`
  (a `TypeError` when either mapping is `None`);
* line 539: `assert num_burnin_steps == 0`. -/
def set_fields (task : TaskConfig) (v : RawMain) : Except DerivErr MainConfig :=
  match v.nano_gpt_config with
  | none => Except.error DerivErr.typeError
  | some ng =>
    if effective_eval_frequency task v = 0 then Except.error DerivErr.zeroDivisionError
    else
      match v.rlct_config with
      | none => Except.error DerivErr.typeError
      | some rc =>
        match rc.sgld_kwargs with
        | none => Except.error DerivErr.typeError
        | some sgld =>
          match rc.sgnht_kwargs with
          | none => Except.error DerivErr.typeError
          | some sgnht =>
            if rc.num_burnin_steps = 0 then
              Except.ok (derived_config task v ng rc sgld sgnht)
            else Except.error DerivErr.burninUnsupported

/-- `WandBConfig.check_sweep_num` (source lines 459-462): raise when
`sweep` is set and `sweep_num` was not supplied. -/
def check_sweep_num (sweep : Bool) (value : Option ℤ) : Except DerivErr (Option ℤ) :=
  if sweep ∧ value = none then Except.error DerivErr.valueErrorSweepNum
  else Except.ok value

/-- Full construction of a validated `MainConfig`: the pre root validator
`_set_fields` runs first, then pydantic field validation (of which only
`WandBConfig.check_sweep_num` can fail on well-typed input). -/
def MainConfig.construct (task : TaskConfig) (v : RawMain) : Except DerivErr MainConfig :=
  match set_fields task v with
  | Except.error e => Except.error e
  | Except.ok cfg =>
    match check_sweep_num cfg.wandb_config.sweep cfg.wandb_config.sweep_num with
    | Except.error e => Except.error e
    | Except.ok _ => Except.ok cfg

/- ---------------------------------------------------------------------
Callback assembly (`devinterp/rlct_utils.py`, `create_callbacks`, lines
107-127).  The estimator classes live outside `src/`; each handle is
modelled as a tagged record of the constructor arguments the assembler
passes (chain count, draw count, sample count where given, p-norm where
given). -/

/-- The estimator / diagnostic classes instantiated by `create_callbacks`. -/
inductive CallbackTag
  | LLCEstimator
  | OnlineLLCEstimator
  | OnlineWBICEstimator
  | WeightNorm
  | NoiseNorm
  | GradientNorm
deriving DecidableEq, Repr

/-- `type(callback).__name__`, as collected into `callback_names`. -/
def CallbackTag.name : CallbackTag → String
  | .LLCEstimator => "LLCEstimator"
  | .OnlineLLCEstimator => "OnlineLLCEstimator"
  | .OnlineWBICEstimator => "OnlineWBICEstimator"
  | .WeightNorm => "WeightNorm"
  | .NoiseNorm => "NoiseNorm"
  | .GradientNorm => "GradientNorm"

/-- A constructed callback handle: the class plus the arguments
`create_callbacks` passes to its constructor (the `device` string is the
same for all and irrelevant to the claims). -/
structure Callback where
  tag : CallbackTag
  num_chains : ℤ
  num_draws : ℤ
  num_samples : Option ℤ
  p_norm : Option ℤ
deriving DecidableEq, Repr

/-- Error raised by callback validation. -/
inductive CallbackErr
  | incompatibleCallbackSet
deriving DecidableEq, Repr

/-- Modelled from the spec: `validate_callbacks` is imported from
`di_automata.devinterp.slt.callback`, which is not under `src/`.  Spec
§4.4: "The assembler performs a compatibility check across the assembled
set (fails with `IncompatibleCallbackSet` if two handles declare
conflicting chain/draw expectations) before returning." -/
def validate_callbacks (callbacks : List Callback) : Except CallbackErr Unit :=
  if callbacks.Pairwise
      (fun a b => a.num_chains = b.num_chains ∧ a.num_draws = b.num_draws) then
    Except.ok ()
  else Except.error CallbackErr.incompatibleCallbackSet

/-- Source line 111: the primary complexity estimator, streaming
(`OnlineLLCEstimator`) when the `online` flag is set, batch-accumulating
(`LLCEstimator`) otherwise. -/
def primary_llc_estimator (rc : RLCTConfig) : Callback :=
  if rc.online then
    { tag := CallbackTag.OnlineLLCEstimator, num_chains := rc.num_chains,
      num_draws := rc.num_draws, num_samples := some rc.num_samples, p_norm := none }
  else
    { tag := CallbackTag.LLCEstimator, num_chains := rc.num_chains,
      num_draws := rc.num_draws, num_samples := some rc.num_samples, p_norm := none }

/-- Source lines 113-119: the four diagnostic handles appended when
`use_diagnostics` is set (`GradientDistribution` is commented out in the
source). -/
def diagnostic_callbacks (rc : RLCTConfig) : List Callback :=
  [{ tag := CallbackTag.OnlineWBICEstimator, num_chains := rc.num_chains,
     num_draws := rc.num_draws, num_samples := some rc.num_samples, p_norm := none },
   { tag := CallbackTag.WeightNorm, num_chains := rc.num_chains,
     num_draws := rc.num_draws, num_samples := none, p_norm := some 2 },
   { tag := CallbackTag.NoiseNorm, num_chains := rc.num_chains,
     num_draws := rc.num_draws, num_samples := none, p_norm := some 2 },
   { tag := CallbackTag.GradientNorm, num_chains := rc.num_chains,
     num_draws := rc.num_draws, num_samples := none, p_norm := some 2 }]

/-- `create_callbacks` (source lines 107-127): primary estimator first,
then the diagnostics when enabled, validated before returning alongside
the class names. -/
def create_callbacks (config : MainConfig) : Except CallbackErr (List Callback × List String) :=
  let rlct_config := config.rlct_config
  let llc_estimator := primary_llc_estimator rlct_config
  let callbacks : List Callback :=
    if rlct_config.use_diagnostics then diagnostic_callbacks rlct_config else []
  let callbacks := llc_estimator :: callbacks
  match validate_callbacks callbacks with
  | Except.error e => Except.error e
  | Except.ok _ => Except.ok (callbacks, callbacks.map (fun c => c.tag.name))

/- ---------------------------------------------------------------------
Helper lemmas about the derivation pipeline. -/

/-- A successful full construction is exactly a successful `_set_fields`
run (whose wandb sweep invariant also held). -/
lemma construct_ok_elim {task : TaskConfig} {v : RawMain} {cfg : MainConfig}
    (h : MainConfig.construct task v = Except.ok cfg) :
    set_fields task v = Except.ok cfg := by
  unfold MainConfig.construct at h
  split at h
  · simp at h
  · next a heq =>
    split at h
    · simp at h
    · simp only [Except.ok.injEq] at h
      rw [← h]
      exact heq

/-- Anatomy of a successful `_set_fields` run: every optional mapping the
function dereferences was present, the effective eval frequency was
nonzero, the burn-in count was zero, and the result is `derived_config`. -/
lemma set_fields_ok_elim {task : TaskConfig} {v : RawMain} {cfg : MainConfig}
    (h : set_fields task v = Except.ok cfg) :
    ∃ (ng : NanoGPTConfig) (rc : RLCTRaw) (sgld : SGLDKwargsRaw) (sgnht : SGNHTKwargsRaw),
      v.nano_gpt_config = some ng ∧ v.rlct_config = some rc ∧
      rc.sgld_kwargs = some sgld ∧ rc.sgnht_kwargs = some sgnht ∧
      effective_eval_frequency task v ≠ 0 ∧ rc.num_burnin_steps = 0 ∧
      cfg = derived_config task v ng rc sgld sgnht := by
  unfold set_fields at h
  split at h
  · simp at h
  · next ng hng =>
    split at h
    · simp at h
    · next hef =>
      split at h
      · simp at h
      · next rc hrc =>
        split at h
        · simp at h
        · next sgld hsg =>
          split at h
          · simp at h
          · next sgnht hsn =>
            split at h
            · next hb =>
              simp only [Except.ok.injEq] at h
              exact ⟨ng, rc, sgld, sgnht, hng, hrc, hsg, hsn, hef, hb, h.symm⟩
            · simp at h

/-- The burn-in assertion is the only source of the burn-in error:
whenever `_set_fields` aborts with it, the raw rlct mapping was present
with a nonzero burn-in count. -/
lemma set_fields_burnin_elim {task : TaskConfig} {v : RawMain}
    (h : set_fields task v = Except.error DerivErr.burninUnsupported) :
    ∃ rc : RLCTRaw, v.rlct_config = some rc ∧ rc.num_burnin_steps ≠ 0 := by
  unfold set_fields at h
  split at h
  · simp at h
  · next ng hng =>
    split at h
    · simp at h
    · next hef =>
      split at h
      · simp at h
      · next rc hrc =>
        split at h
        · simp at h
        · next sgld hsg =>
          split at h
          · simp at h
          · next sgnht hsn =>
            split at h
            · next hb => simp at h
            · next hb => exact ⟨rc, hrc, hb⟩

/-- Full construction aborts with the burn-in error only when the raw
burn-in count was nonzero (the sweep check raises a different error). -/
lemma construct_burnin_elim {task : TaskConfig} {v : RawMain}
    (h : MainConfig.construct task v = Except.error DerivErr.burninUnsupported) :
    ∃ rc : RLCTRaw, v.rlct_config = some rc ∧ rc.num_burnin_steps ≠ 0 := by
  unfold MainConfig.construct at h
  split at h
  · next e heq =>
    simp only [Except.error.injEq] at h
    exact set_fields_burnin_elim (h ▸ heq)
  · next a heq =>
    split at h
    · next e hc =>
      simp only [Except.error.injEq] at h
      rw [h] at hc
      unfold check_sweep_num at hc
      split at hc
      · simp at hc
      · simp at hc
    · simp at h

/- ---------------------------------------------------------------------
Concrete example inputs used by counterexamples and witnesses. -/

/-- A parity task with sequence length 2 (population bound `2 ^ 2 = 4`)
and dataset size 5. -/
def exampleTask : TaskConfig :=
  TaskConfig.parity { size := 5, length := 2, prob1 := 1/2 }

/-- A raw SGLD kwargs mapping. -/
def exampleSGLD : SGLDKwargsRaw :=
  { lr := 1/1000, noise_level := 1, weight_decay := 1/10000, elasticity := 1,
    bounding_box_size := none, temperature := "adaptive" }

/-- A raw SGNHT kwargs mapping. -/
def exampleSGNHT : SGNHTKwargsRaw :=
  { lr := 1/1000, diffusion_factor := 1/100, bounding_box_size := none }

/-- A raw rlct mapping: 2 draws, 1 step between draws, no burn-in. -/
def exampleRLCT : RLCTRaw :=
  { rlct_loss_type := "ce", sampling_method := some "SGLD", sigma := 1,
    num_chains := 10, num_draws := 2, num_burnin_steps := 0,
    num_steps_bw_draws := 1, batch_size := 3, cores := 1, verbose := true,
    online := false, use_distill_loss := false, use_diagnostics := true,
    save_results := true, sgld_kwargs := some exampleSGLD,
    sgnht_kwargs := some exampleSGNHT }

/-- A raw NanoGPT mapping. -/
def exampleNano : NanoGPTConfig :=
  { block_size := 1024, vocab_size := 50304, output_vocab_size := none,
    n_layers := 2, n_heads := 8, embed_dim := 512, dropout := 1/10,
    is_causal := false, bias := true }

/-- A raw wandb mapping with no sweep. -/
def exampleWandB : WandBConfig :=
  { log_to_wandb := false, save_model_as_artifact := true,
    wandb_project_name := "devinterp-automata", entity_name := "wu-cindyx",
    sweep := false, sweep_num := none, wandb_run_name_suffix := none }

/-- A raw dataloader mapping with train batch size 3. -/
def exampleDataLoader : DataLoaderConfig :=
  { train_bs := 3, test_bs := 32, num_workers := 1, train_fraction := 19/20,
    shuffle_train := true }

/-- A complete raw input with `eval_frequency` omitted. -/
def exampleRaw : RawMain :=
  { model_type := "NANO_GPT", dataloader_config := exampleDataLoader,
    optimizer_config := { default_lr := 1/1000 },
    nano_gpt_config := some exampleNano, rlct_config := some exampleRLCT,
    wandb_config := exampleWandB, num_training_iter := 10000,
    eval_frequency := none }

/-- The configuration `exampleTask`/`exampleRaw` derives to. -/
def exampleDerived : MainConfig :=
  derived_config exampleTask exampleRaw exampleNano exampleRLCT exampleSGLD exampleSGNHT

/-- `exampleRaw` with a negative supplied `eval_frequency`. -/
def exampleRawNegEF : RawMain := { exampleRaw with eval_frequency := some (-5) }

/-- The configuration `exampleTask`/`exampleRawNegEF` derives to. -/
def exampleDerivedNegEF : MainConfig :=
  derived_config exampleTask exampleRawNegEF exampleNano exampleRLCT exampleSGLD exampleSGNHT

/-- `exampleRaw` with a nonzero burn-in step count. -/
def exampleRawBurnin : RawMain :=
  { exampleRaw with rlct_config := some { exampleRLCT with num_burnin_steps := 7 } }

/- ---------------------------------------------------------------------
Claim theorems. -/

/-- C7: the per-variant vocabulary formulas as pure functions of the
variant's own fields: an adder with 2 addends has `vocab_size` 4 and
`output_vocab_size` 6 / 2 / 2 for the labels state / digit / position,
and a dihedral task with n = 4 has `output_vocab_size` 8 / 2 / 4 for
state / toggle / position. -/
theorem adder_dihedral_vocab_formulas
    (a : AdderAutomatonConfig) (d : DihedralAutomatonConfig)
    (ha : a.n_addends = 2) (hd : d.n = 4) :
    a.vocab_size = 4 ∧
    ({ a with label_type := AdderLabel.state }).output_vocab_size = 6 ∧
    ({ a with label_type := AdderLabel.digit }).output_vocab_size = 2 ∧
    ({ a with label_type := AdderLabel.position }).output_vocab_size = 2 ∧
    ({ d with label_type := DihedralLabel.state }).output_vocab_size = 8 ∧
    ({ d with label_type := DihedralLabel.toggle }).output_vocab_size = 2 ∧
    ({ d with label_type := DihedralLabel.position }).output_vocab_size = 4 := by
  refine ⟨rfl, ?_, ?_, ?_, ?_, ?_, ?_⟩ <;>
    simp [AdderAutomatonConfig.output_vocab_size,
          DihedralAutomatonConfig.output_vocab_size, ha, hd]

/-- Witness for C7 at a concrete adder and dihedral instance. -/
theorem adder_dihedral_vocab_formulas_witness :
    (({ size := 600000, length := 100, prob1 := 1/2, n_addends := 2,
        label_type := AdderLabel.state } : AdderAutomatonConfig).vocab_size = 4 ∧
     ({ ({ size := 600000, length := 100, prob1 := 1/2, n_addends := 2,
           label_type := AdderLabel.state } : AdderAutomatonConfig) with
        label_type := AdderLabel.state }).output_vocab_size = 6 ∧
     ({ ({ size := 600000, length := 100, prob1 := 1/2, n_addends := 2,
           label_type := AdderLabel.state } : AdderAutomatonConfig) with
        label_type := AdderLabel.digit }).output_vocab_size = 2 ∧
     ({ ({ size := 600000, length := 100, prob1 := 1/2, n_addends := 2,
           label_type := AdderLabel.state } : AdderAutomatonConfig) with
        label_type := AdderLabel.position }).output_vocab_size = 2 ∧
     ({ ({ size := 600000, length := 100, n := 4,
           label_type := DihedralLabel.state } : DihedralAutomatonConfig) with
        label_type := DihedralLabel.state }).output_vocab_size = 8 ∧
     ({ ({ size := 600000, length := 100, n := 4,
           label_type := DihedralLabel.state } : DihedralAutomatonConfig) with
        label_type := DihedralLabel.toggle }).output_vocab_size = 2 ∧
     ({ ({ size := 600000, length := 100, n := 4,
           label_type := DihedralLabel.state } : DihedralAutomatonConfig) with
        label_type := DihedralLabel.position }).output_vocab_size = 4) :=
  adder_dihedral_vocab_formulas
    { size := 600000, length := 100, prob1 := 1/2, n_addends := 2,
      label_type := AdderLabel.state }
    { size := 600000, length := 100, n := 4, label_type := DihedralLabel.state }
    rfl rfl

/-- C9: with `perm_probs` omitted, `set_perm_probs` builds the uniform
distribution over the declared generators (the empty list for zero
generators); a supplied list is kept unchanged. -/
theorem set_perm_probs_uniform (g : List (List ℤ)) (l : List ℚ) :
    ((set_perm_probs none g).length = g.length ∧
     (∀ x ∈ set_perm_probs none g, x = 1 / (g.length : ℚ)) ∧
     (g = [] → set_perm_probs none g = [])) ∧
    set_perm_probs (some l) g = l := by
  refine ⟨⟨?_, ?_, ?_⟩, rfl⟩
  · simp [set_perm_probs]
  · intro x hx
    simp only [set_perm_probs] at hx
    rcases List.eq_of_mem_replicate hx with rfl
    by_cases hg : g.length > 0
    · simp [hg]
    · have hz : g.length = 0 := by omega
      simp [hz]
  · intro hg
    subst hg
    rfl

/-- Witness for C9 at two generators and at a kept supplied list. -/
theorem set_perm_probs_uniform_witness :
    (((set_perm_probs none [[1,0],[0,1]]).length = ([[1,0],[0,1]] : List (List ℤ)).length ∧
      (∀ x ∈ set_perm_probs none [[1,0],[0,1]], x = 1 / (([[1,0],[0,1]] : List (List ℤ)).length : ℚ)) ∧
      (([[1,0],[0,1]] : List (List ℤ)) = [] → set_perm_probs none [[1,0],[0,1]] = [])) ∧
     set_perm_probs (some [(2:ℚ)/3]) [[1,0],[0,1]] = [(2:ℚ)/3]) ∧
    set_perm_probs none [[1,0],[0,1]] = [1/2, 1/2] :=
  ⟨set_perm_probs_uniform [[1,0],[0,1]] [(2:ℚ)/3],
   by norm_num [set_perm_probs, List.replicate]⟩

/-- C10: permutation-with-reset construction checks only the first
generator's arity: it fails whenever the first generator's length differs
from `n`, and succeeds whenever the first generator's length equals `n`
regardless of the other generators. -/
theorem permutation_reset_checks_first_generator_only :
    (∀ (size : ℤ) (len n : ℕ) (g : List ℤ) (rest : List (List ℤ)) (pp : Option (List ℚ)),
       g.length ≠ n →
       PermutationResetAutomatonConfig.construct size len n (g :: rest) pp =
         Except.error TaskErr.assertionGenerators) ∧
    (∀ (size : ℤ) (len n : ℕ) (g : List ℤ) (rest : List (List ℤ)) (pp : Option (List ℚ)),
       g.length = n →
       PermutationResetAutomatonConfig.construct size len n (g :: rest) pp =
         Except.ok { size := size, length := len, n := n, generators := g :: rest,
                     perm_probs := set_perm_probs pp (g :: rest) }) := by
  constructor
  · intro size len n g rest pp hg
    simp [PermutationResetAutomatonConfig.construct, check_generators, hg]
  · intro size len n g rest pp hg
    simp [PermutationResetAutomatonConfig.construct, check_generators, hg]

/-- Witness for C10: a wrong-arity first generator fails; a correct first
generator succeeds even though the second generator has the wrong arity. -/
theorem permutation_reset_checks_first_generator_only_witness :
    PermutationResetAutomatonConfig.construct 0 3 4 [[1,2,3]] none =
      Except.error TaskErr.assertionGenerators ∧
    PermutationResetAutomatonConfig.construct 0 3 4 [[1,0,2,3],[0,1]] none =
      Except.ok { size := 0, length := 3, n := 4, generators := [[1,0,2,3],[0,1]],
                  perm_probs := set_perm_probs none [[1,0,2,3],[0,1]] } :=
  ⟨permutation_reset_checks_first_generator_only.1 0 3 4 [1,2,3] [] none (by decide),
   permutation_reset_checks_first_generator_only.2 0 3 4 [1,0,2,3] [[0,1]] none (by decide)⟩

/-- C1 counterexample: for `exampleTask` (population bound `2 ^ 2 = 4`)
and `exampleRaw` (2 draws, 1 step between draws, no burn-in, batch size 3
in both the dataloader and the rlct record), the derivation succeeds with
`num_samples = 4`, whereas the spec formula `min(draws * steps + burn-in,
bound) * batch_size` yields 6: the code multiplies by the batch size
before taking the min, not after. -/
theorem rlct_num_samples_min_order_counterexample :
    (MainConfig.construct exampleTask exampleRaw).toOption.map
        (fun cfg => cfg.rlct_config.num_samples) = some 4 ∧
    min (exampleRLCT.num_draws * exampleRLCT.num_steps_bw_draws + exampleRLCT.num_burnin_steps)
        ((exampleTask.vocab_size : ℤ) ^ exampleTask.length) * exampleRLCT.batch_size = 6 ∧
    min (exampleRLCT.num_draws * exampleRLCT.num_steps_bw_draws + exampleRLCT.num_burnin_steps)
        ((exampleTask.vocab_size : ℤ) ^ exampleTask.length) * exampleDataLoader.train_bs = 6 ∧
    (4 : ℤ) < 6 := by
  refine ⟨?_, by decide, by decide, by decide⟩
  decide

/-- C1 (amended): in every successfully derived configuration, the RLCT
`num_samples` equals `min((num_draws * num_steps_bw_draws +
num_burnin_steps) * train_bs, vocab_size ^ length)` — the multiplication
by the dataloader train batch size happens before the min against the
population bound, not after. -/
theorem rlct_num_samples_formula (task : TaskConfig) (v : RawMain)
    (cfg : MainConfig) (rc : RLCTRaw)
    (h : MainConfig.construct task v = Except.ok cfg)
    (hrc : v.rlct_config = some rc) :
    cfg.rlct_config.num_samples =
      min ((rc.num_draws * rc.num_steps_bw_draws + rc.num_burnin_steps) *
             v.dataloader_config.train_bs)
          ((task.vocab_size : ℤ) ^ task.length) := by
  obtain ⟨ng, rc2, sgld, sgnht, hng, hrc2, hsg, hsn, hef, hb, rfl⟩ :=
    set_fields_ok_elim (construct_ok_elim h)
  rw [hrc] at hrc2
  injection hrc2 with e
  subst e
  rfl

/-- Witness for the amended C1 at `exampleTask`/`exampleRaw`, where the
formula evaluates to `min(6, 4) = 4`. -/
theorem rlct_num_samples_formula_witness :
    exampleDerived.rlct_config.num_samples =
      min ((exampleRLCT.num_draws * exampleRLCT.num_steps_bw_draws +
              exampleRLCT.num_burnin_steps) * exampleRaw.dataloader_config.train_bs)
          ((exampleTask.vocab_size : ℤ) ^ exampleTask.length) ∧
    exampleDerived.rlct_config.num_samples = 4 :=
  ⟨rlct_num_samples_formula exampleTask exampleRaw exampleDerived exampleRLCT rfl rfl,
   by decide⟩

/-- C2: after every successful derivation, both sampler kwargs records
carry a `num_samples` equal to the derived `RLCTConfig.num_samples`,
independent of which sampler family is selected. -/
theorem sampler_kwargs_num_samples_synchronized (task : TaskConfig) (v : RawMain)
    (cfg : MainConfig) (h : MainConfig.construct task v = Except.ok cfg) :
    cfg.rlct_config.sgld_kwargs.num_samples = cfg.rlct_config.num_samples ∧
    cfg.rlct_config.sgnht_kwargs.num_samples = cfg.rlct_config.num_samples := by
  obtain ⟨ng, rc, sgld, sgnht, hng, hrc, hsg, hsn, hef, hb, rfl⟩ :=
    set_fields_ok_elim (construct_ok_elim h)
  exact ⟨rfl, rfl⟩

/-- Witness for C2 at `exampleTask`/`exampleRaw`. -/
theorem sampler_kwargs_num_samples_synchronized_witness :
    (exampleDerived.rlct_config.sgld_kwargs.num_samples =
       exampleDerived.rlct_config.num_samples ∧
     exampleDerived.rlct_config.sgnht_kwargs.num_samples =
       exampleDerived.rlct_config.num_samples) ∧
    exampleDerived.rlct_config.sgld_kwargs.num_samples = 4 :=
  ⟨sampler_kwargs_num_samples_synchronized exampleTask exampleRaw exampleDerived rfl,
   by decide⟩

/-- C3: in every successfully derived configuration, the RLCT
`num_samples` is at most the population bound `vocab_size ^ length` of
the resolved task. -/
theorem rlct_num_samples_le_population_bound (task : TaskConfig) (v : RawMain)
    (cfg : MainConfig) (h : MainConfig.construct task v = Except.ok cfg) :
    cfg.rlct_config.num_samples ≤ (task.vocab_size : ℤ) ^ task.length := by
  obtain ⟨ng, rc, sgld, sgnht, hng, hrc, hsg, hsn, hef, hb, rfl⟩ :=
    set_fields_ok_elim (construct_ok_elim h)
  exact min_le_right _ _

/-- Witness for C3 at `exampleTask`/`exampleRaw` (`4 ≤ 4`). -/
theorem rlct_num_samples_le_population_bound_witness :
    exampleDerived.rlct_config.num_samples ≤
      (exampleTask.vocab_size : ℤ) ^ exampleTask.length ∧
    (exampleTask.vocab_size : ℤ) ^ exampleTask.length = 4 :=
  ⟨rlct_num_samples_le_population_bound exampleTask exampleRaw exampleDerived rfl,
   by decide⟩

/-- C4: construction fails whenever the raw burn-in step count is
nonzero, and when it is zero the burn-in assertion never fires (the
construction cannot abort with the burn-in error). -/
theorem burnin_zero_required :
    (∀ (task : TaskConfig) (v : RawMain) (rc : RLCTRaw),
       v.rlct_config = some rc → rc.num_burnin_steps ≠ 0 →
       (MainConfig.construct task v).toOption = none) ∧
    (∀ (task : TaskConfig) (v : RawMain) (rc : RLCTRaw),
       v.rlct_config = some rc → rc.num_burnin_steps = 0 →
       MainConfig.construct task v ≠ Except.error DerivErr.burninUnsupported) := by
  constructor
  · intro task v rc hrc hb
    cases hc : MainConfig.construct task v with
    | error e => rfl
    | ok cfg =>
      obtain ⟨ng, rc2, sgld, sgnht, hng, hrc2, hsg, hsn, hef, hb2, _⟩ :=
        set_fields_ok_elim (construct_ok_elim hc)
      rw [hrc] at hrc2
      injection hrc2 with e
      exact absurd (e ▸ hb2) hb
  · intro task v rc hrc hb hcontra
    obtain ⟨rc2, hrc2, hb2⟩ := construct_burnin_elim hcontra
    rw [hrc] at hrc2
    injection hrc2 with e
    exact hb2 (e ▸ hb)

/-- Witness for C4: nonzero burn-in aborts construction at
`exampleRawBurnin`; zero burn-in never produces the burn-in error at
`exampleRaw`. -/
theorem burnin_zero_required_witness :
    (MainConfig.construct exampleTask exampleRawBurnin).toOption = none ∧
    MainConfig.construct exampleTask exampleRaw ≠
      Except.error DerivErr.burninUnsupported :=
  ⟨burnin_zero_required.1 exampleTask exampleRawBurnin
     { exampleRLCT with num_burnin_steps := 7 } rfl (by decide),
   burnin_zero_required.2 exampleTask exampleRaw exampleRLCT rfl rfl⟩

/-- C5: when the raw input omits `eval_frequency`, the derived value is
the task's declared dataset size, and in every successfully derived
configuration `num_epochs = ceil(num_training_iter / eval_frequency)`. -/
theorem eval_frequency_default_and_epochs (task : TaskConfig) (v : RawMain)
    (cfg : MainConfig) (h : MainConfig.construct task v = Except.ok cfg) :
    (v.eval_frequency = none → cfg.eval_frequency = task.size) ∧
    cfg.num_epochs = ⌈(v.num_training_iter : ℚ) / (cfg.eval_frequency : ℚ)⌉ := by
  obtain ⟨ng, rc, sgld, sgnht, hng, hrc, hsg, hsn, hef, hb, rfl⟩ :=
    set_fields_ok_elim (construct_ok_elim h)
  constructor
  · intro he
    show effective_eval_frequency task v = task.size
    unfold effective_eval_frequency
    rw [he]
  · rfl

/-- Witness for C5 at `exampleTask`/`exampleRaw` (which omits
`eval_frequency`): the derived value is the dataset size 5. -/
theorem eval_frequency_default_and_epochs_witness :
    ((exampleRaw.eval_frequency = none → exampleDerived.eval_frequency = exampleTask.size) ∧
     exampleDerived.num_epochs =
       ⌈(exampleRaw.num_training_iter : ℚ) / (exampleDerived.eval_frequency : ℚ)⌉) ∧
    exampleDerived.eval_frequency = exampleTask.size ∧
    exampleDerived.eval_frequency = 5 :=
  have h := eval_frequency_default_and_epochs exampleTask exampleRaw exampleDerived rfl
  ⟨h, h.1 rfl, by decide⟩

/-- C6 counterexample: a raw input supplying `eval_frequency = -5`
derives successfully and the derived configuration keeps the negative
value — no `DerivationConstraintViolation` is raised for a non-positive
eval frequency. -/
theorem eval_frequency_negative_accepted :
    (MainConfig.construct exampleTask exampleRawNegEF).toOption.map
        (fun cfg => cfg.eval_frequency) = some (-5) ∧
    (-5 : ℤ) < 0 := by
  refine ⟨?_, by decide⟩
  decide

/-- C6 (amended): the derivation performs no positivity check on
`eval_frequency`: any supplied nonzero value — negative values included —
is kept verbatim in the derived configuration (only `None` and `0` are
replaced by the dataset size). -/
theorem eval_frequency_kept_verbatim (task : TaskConfig) (v : RawMain)
    (cfg : MainConfig) (e : ℤ)
    (h : MainConfig.construct task v = Except.ok cfg)
    (he : v.eval_frequency = some e) (hne : e ≠ 0) :
    cfg.eval_frequency = e := by
  obtain ⟨ng, rc, sgld, sgnht, hng, hrc, hsg, hsn, hef, hb, rfl⟩ :=
    set_fields_ok_elim (construct_ok_elim h)
  show effective_eval_frequency task v = e
  unfold effective_eval_frequency
  rw [he]
  simp [hne]

/-- Witness for the amended C6: the supplied `-5` is kept. -/
theorem eval_frequency_kept_verbatim_witness :
    exampleDerivedNegEF.eval_frequency = -5 :=
  eval_frequency_kept_verbatim exampleTask exampleRawNegEF exampleDerivedNegEF (-5)
    rfl rfl (by decide)

/-- C8: for every validated configuration, callback assembly succeeds and
returns the primary complexity estimator first — the streaming
`OnlineLLCEstimator` when the `online` flag is set, the batch
`LLCEstimator` otherwise — followed by exactly the four diagnostic
handles in their fixed order when `use_diagnostics` is set, and by
nothing otherwise. -/
theorem create_callbacks_primary_first_and_diagnostics (config : MainConfig) :
    (create_callbacks config).toOption.map Prod.fst =
      some ((if config.rlct_config.online then
               ({ tag := CallbackTag.OnlineLLCEstimator,
                  num_chains := config.rlct_config.num_chains,
                  num_draws := config.rlct_config.num_draws,
                  num_samples := some config.rlct_config.num_samples,
                  p_norm := none } : Callback)
             else
               ({ tag := CallbackTag.LLCEstimator,
                  num_chains := config.rlct_config.num_chains,
                  num_draws := config.rlct_config.num_draws,
                  num_samples := some config.rlct_config.num_samples,
                  p_norm := none } : Callback)) ::
            (if config.rlct_config.use_diagnostics then
               diagnostic_callbacks config.rlct_config
             else [])) ∧
    (diagnostic_callbacks config.rlct_config).length = 4 := by
  constructor
  · cases ho : config.rlct_config.online <;> cases hd : config.rlct_config.use_diagnostics <;>
      simp [create_callbacks, validate_callbacks, primary_llc_estimator,
            diagnostic_callbacks, ho, hd, List.pairwise_cons] <;>
      exact ⟨_, rfl⟩
  · rfl
